import Mathlib

/-!
Shallow embedding of the two auto-refund scripts of this repository:
variant A is `src/autoRefund.py` and variant B is `src/auto_refund.py`.
Both authenticate against a remote API, fetch a page of bills and issue
refund requests; network effects are modelled by explicit parameters
(the parsed HTTP responses) and by lists of the requests the code sends.
-/

/-- A Python value as it can appear in a parsed JSON field.  `vnone` is
Python `None`, covering both a JSON `null` and an absent key fetched with
`dict.get`.  Python `bool` is kept separate because it is a subclass of
`int` there; floats are modelled as rationals. -/
inductive PyVal where
  | vnone
  | vint (n : Int)
  | vfloat (q : Rat)
  | vstr (s : String)
  | vbool (b : Bool)
deriving DecidableEq

/-- Python truthiness (`bool(v)`) for the values of `PyVal`. -/
def pyTruthy : PyVal → Bool
  | .vnone => false
  | .vint n => n != 0
  | .vfloat q => q != 0
  | .vstr s => s != ""
  | .vbool b => b

/-- Python `v == 0` for the values of `PyVal` (`False == 0` is true,
strings and `None` never equal `0`). -/
def pyEqZero : PyVal → Bool
  | .vnone => false
  | .vint n => n == 0
  | .vfloat q => q == 0
  | .vstr _ => false
  | .vbool b => !b

/-- Python `isinstance(v, (int, str))`; `bool` is a subclass of `int`. -/
def pyIsIntOrStr : PyVal → Bool
  | .vint _ => true
  | .vbool _ => true
  | .vstr _ => true
  | _ => false

/-- Python `v is None`. -/
def isNone : PyVal → Bool
  | .vnone => true
  | _ => false

/-- Truncation of a rational toward zero, as Python `int()` applied to a
float: T-division of the numerator by the denominator. -/
def ratTrunc (q : Rat) : Int := q.num.tdiv (q.den : Int)

/-- The value of a run of decimal digits, most significant first. -/
def digitsToNat (cs : List Char) : Nat :=
  cs.foldl (fun a c => 10 * a + (c.toNat - 48)) 0

/-- Python `int()` on a string: an optional sign followed by a nonempty
run of decimal digits (Python additionally strips whitespace and allows
underscores between digits; no such literal occurs here).  `none` models
the `ValueError` the call raises otherwise. -/
def strToInt (s : String) : Option Int :=
  match s.data with
  | '-' :: rest =>
    if rest.isEmpty || !rest.all Char.isDigit then none
    else some (-(Int.ofNat (digitsToNat rest)))
  | '+' :: rest =>
    if rest.isEmpty || !rest.all Char.isDigit then none
    else some (Int.ofNat (digitsToNat rest))
  | cs =>
    if cs.isEmpty || !cs.all Char.isDigit then none
    else some (Int.ofNat (digitsToNat cs))

/-- Python `int(v)`: identity on ints, `True`/`False` to `1`/`0`,
truncation toward zero on floats, digit parsing on strings.  `none` means
the call raises (`TypeError` on `None`, `ValueError` on a non-numeric
string). -/
def pyToInt : PyVal → Option Int
  | .vint n => some n
  | .vbool b => some (if b then 1 else 0)
  | .vfloat q => some (ratTrunc q)
  | .vstr s => strToInt s
  | .vnone => none

/-- The test `amt == 0 or amt is None` guarding the skip branch of
variant A's loop. -/
def zeroOrNone (v : PyVal) : Bool := pyEqZero v || isNone v

/-- One bill record as the loops read it: `bill.get("id")` and
`bill.get("actualMoney")`, with `vnone` for an absent or null field.
Further fields of the record are never inspected by either script. -/
structure Bill where
  id : PyVal
  actualMoney : PyVal
deriving DecidableEq

/-- The `data` field of a fetched response in variant A, which checks
`isinstance(bills, list)`: the field may be absent (`.get` default `[]`),
a list, or some non-list value. -/
inductive DataField where
  | absent
  | list (bs : List Bill)
  | nonlist
deriving DecidableEq

/-- A fetched response as variant A's `process_refunds` reads it:
the `totalCount` field (`none` when the key is absent) and the `data`
field. -/
structure BillData where
  totalCount : Option PyVal
  dataField : DataField
deriving DecidableEq

/-- The bill list variant A ends up iterating when the `data` field is a
list, `[]` otherwise. -/
def billsOfA (bd : BillData) : List Bill :=
  match bd.dataField with
  | .list bs => bs
  | _ => []

/-- The tally variant A logs after its loop: `Success / Failed / Skipped`. -/
structure RunCounts where
  success : Nat
  failed : Nat
  skipped : Nat
deriving DecidableEq

/-- The JSON body of one refund request of variant A (`refund_bill` in
`autoRefund.py`), plus the `timeout=30` option its `requests.post` call
passes. -/
structure RefundReq where
  billId : Int
  memberId : Option Int
  refundMoney : Int
  note : String
  refundPowerDiscount : Int
  timeoutSeconds : Option Nat
deriving DecidableEq

/-- Result of variant A's `process_refunds`: the summary line logged
after the loop (`none` when the function returned early or an exception
escaped), the refund requests actually sent, and whether an uncaught
exception escaped the loop. -/
structure ProcOut where
  summary : Option RunCounts
  reqs : List RefundReq
  crash : Bool
deriving DecidableEq

/-- Truthiness of the global `auth_token` (`if not auth_token`). -/
def tokenTruthy : Option PyVal → Bool
  | none => false
  | some v => pyTruthy v

/-- Variant A's `refund_bill(bill_id, amount)`: returns `False` with no
request when the stored token is falsy; otherwise posts the payload
`{billId, memberId: None, refundMoney: amount, note: f"python-refund-{id}-{date}",
refundPowerDiscount: 0}` with `timeout=30` and returns whether the HTTP
status was 2xx (`httpOk`). -/
def refundBillA (token : Option PyVal) (billId amount : Int) (today : String)
    (httpOk : Bool) : Bool × List RefundReq :=
  if tokenTruthy token then
    (httpOk, [⟨billId, none, amount,
               "python-refund-" ++ toString billId ++ "-" ++ today, 0, some 30⟩])
  else (false, [])

/-- The per-bill loop of variant A's `process_refunds`: for each bill,
`continue` (uncounted) when `not bill_id or not isinstance(bill_id, (int, str))`;
then `bill_id_int = int(bill_id)` (a crash when it raises); skip counting
when `amt == 0 or amt is None`; otherwise call
`refund_bill(bill_id_int, int(amt))` and tally success or failure.
`orac k` is the HTTP outcome of the k-th refund request sent; `acc`
accumulates the requests sent so far. -/
def processLoopA (token : Option PyVal) (today : String) (orac : Nat → Bool) :
    List Bill → Nat → Nat → Nat → Nat → List RefundReq → ProcOut
  | [], s, f, sk, _, acc => ⟨some ⟨s, f, sk⟩, acc, false⟩
  | b :: rest, s, f, sk, k, acc =>
    if !pyTruthy b.id || !pyIsIntOrStr b.id then
      processLoopA token today orac rest s f sk k acc
    else
      match pyToInt b.id with
      | none => ⟨none, acc, true⟩
      | some bid =>
        if zeroOrNone b.actualMoney then
          processLoopA token today orac rest s f (sk + 1) k acc
        else
          match pyToInt b.actualMoney with
          | none => ⟨none, acc, true⟩
          | some m =>
            let r := refundBillA token bid m today (orac k)
            processLoopA token today orac rest
              (if r.1 then s + 1 else s) (if r.1 then f else f + 1) sk
              (k + r.2.length) (acc ++ r.2)

/-- Variant A's `process_refunds(bill_data)`: return early when
`bill_data.get("totalCount", 0) == 0` or when the `data` field is not a
list; otherwise run the per-bill loop and log the summary. -/
def processRefundsA (token : Option PyVal) (today : String) (orac : Nat → Bool)
    (bd : BillData) : ProcOut :=
  if pyEqZero (bd.totalCount.getD (PyVal.vint 0)) then ⟨none, [], false⟩
  else
    match bd.dataField with
    | .nonlist => ⟨none, [], false⟩
    | .absent => processLoopA token today orac [] 0 0 0 0 []
    | .list bs => processLoopA token today orac bs 0 0 0 0 []

/-- The JSON body of one refund request of variant B (`refund_bill` in
`auto_refund.py`): `{billId: bill_id, memberId: None, refundMoney: int(amount),
note: "auto-refund", refundPowerDiscount: 0}`.  The id is passed through
unconverted, and `session.post` is called without a `timeout` argument. -/
structure RefundReqB where
  billId : PyVal
  memberId : Option Int
  refundMoney : Int
  note : String
  refundPowerDiscount : Int
  timeoutSeconds : Option Nat
deriving DecidableEq

/-- Variant B's `refund_bill(bill_id, amount)`: `int(amount)` is evaluated
while building the payload, outside the `try` block, so a non-convertible
amount raises out of the function (`.error`); otherwise the request is
posted and the result is whether `raise_for_status` passed (`httpOk`). -/
def refundBillB (bid : PyVal) (amt : PyVal) (httpOk : Bool) :
    Except Unit (Bool × RefundReqB) :=
  match pyToInt amt with
  | none => .error ()
  | some m => .ok (httpOk, ⟨bid, none, m, "auto-refund", 0, none⟩)

/-- The tally variant B logs after its loop: `Success / Failed`
(it keeps no skipped count). -/
structure CountsB where
  success : Nat
  failed : Nat
deriving DecidableEq

/-- Result of variant B's `process_refunds`, analogous to `ProcOut`. -/
structure ProcOutB where
  summary : Option CountsB
  reqs : List RefundReqB
  crash : Bool
deriving DecidableEq

/-- The per-bill loop of variant B's `process_refunds`: a bill is acted on
exactly when `bid and amt is not None`; there is no zero-amount check, no
id-type check and no skipped counter.  A bill failing the test is passed
over silently. -/
def processLoopB (orac : Nat → Bool) :
    List Bill → Nat → Nat → Nat → List RefundReqB → ProcOutB
  | [], s, f, _, acc => ⟨some ⟨s, f⟩, acc, false⟩
  | b :: rest, s, f, k, acc =>
    if pyTruthy b.id && !isNone b.actualMoney then
      match refundBillB b.id b.actualMoney (orac k) with
      | .error _ => ⟨none, acc, true⟩
      | .ok (res, req) =>
        processLoopB orac rest (if res then s + 1 else s)
          (if res then f else f + 1) (k + 1) (acc ++ [req])
    else processLoopB orac rest s f k acc

/-- A fetched response as variant B's `process_refunds` reads it.  The
`data` field is modelled as the list it holds (`[]` when absent); variant B
has no non-list guard and no claim exercises a non-list `data` field. -/
structure BillDataB where
  totalCount : Option PyVal
  bills : List Bill
deriving DecidableEq

/-- Variant B's `process_refunds(bill_data)`: return early when
`bill_data.get('totalCount', 0) == 0`, else run the loop. -/
def processRefundsB (orac : Nat → Bool) (bd : BillDataB) : ProcOutB :=
  if pyEqZero (bd.totalCount.getD (PyVal.vint 0)) then ⟨none, [], false⟩
  else processLoopB orac bd.bills 0 0 0 []

/-- Token extraction shared by both login functions: the `data` field of a
2xx login response yields the token exactly when it is truthy
(variant A: `if data.get("data")`, variant B:
`if 'data' in login_data and login_data['data']`).  The argument is `none`
when the login request itself failed (non-2xx or transport error). -/
def loginResult (d : Option PyVal) : Option PyVal :=
  match d with
  | none => none
  | some v => if pyTruthy v then some v else none

/-- Observable outcome of one whole run of variant A: the process exit
code, whether a fetch request was issued, and the refund requests sent. -/
structure RunResultA where
  exitCode : Nat
  fetchIssued : Bool
  reqs : List RefundReq
deriving DecidableEq

/-- Variant A's `__main__` block: `sys.exit(1)` when `login()` returns a
falsy value; otherwise `fetch_bills` is called (one fetch request), and
when it returns data `process_refunds` runs.  An exception escaping the
loop aborts the interpreter with exit code 1; otherwise the script ends
with exit code 0. -/
def mainA (loginData : Option PyVal) (fetchResp : Option BillData)
    (today : String) (orac : Nat → Bool) : RunResultA :=
  match loginResult loginData with
  | none => ⟨1, false, []⟩
  | some tok =>
    match fetchResp with
    | none => ⟨0, true, []⟩
    | some bd =>
      let p := processRefundsA (some tok) today orac bd
      ⟨if p.crash then 1 else 0, true, p.reqs⟩

/-- Observable outcome of one whole run of variant B. -/
structure RunResultB where
  exitCode : Nat
  fetchIssued : Bool
  reqs : List RefundReqB
deriving DecidableEq

/-- Variant B's `main()`: on login failure it logs and `return`s, so the
script falls off the end of `main` and the process exits 0; otherwise
`fetch_bills()` is called and, when it returns data, `process_refunds`
runs.  An uncaught exception (e.g. `int()` in `refund_bill`'s payload)
aborts with exit code 1. -/
def mainB (loginData : Option PyVal) (fetchResp : Option BillDataB)
    (orac : Nat → Bool) : RunResultB :=
  match loginResult loginData with
  | none => ⟨0, false, []⟩
  | some _ =>
    match fetchResp with
    | none => ⟨0, true, []⟩
    | some bd =>
      let p := processRefundsB orac bd
      ⟨if p.crash then 1 else 0, true, p.reqs⟩

/-- The per-request options of one HTTP call site. -/
structure HttpOpts where
  timeoutSeconds : Option Nat
deriving DecidableEq

/-- Variant A `login`: `requests.post(url, headers=..., json=..., timeout=30)`. -/
def loginOptsA : HttpOpts := ⟨some 30⟩

/-- Variant A `fetch_bills`: `requests.post(..., timeout=30)`. -/
def fetchOptsA : HttpOpts := ⟨some 30⟩

/-- Variant A `refund_bill`: `requests.post(..., timeout=30)`. -/
def refundOptsA : HttpOpts := ⟨some 30⟩

/-- Variant B `AuthManager.login`: `session.post(...)` with no timeout
argument (library default: no timeout). -/
def loginOptsB : HttpOpts := ⟨none⟩

/-- Variant B `fetch_bills`: `session.post(...)` with no timeout argument. -/
def fetchOptsB : HttpOpts := ⟨none⟩

/-- Variant B `refund_bill`: `session.post(...)` with no timeout argument. -/
def refundOptsB : HttpOpts := ⟨none⟩

/-- Variant A's required configuration keys: `required = ["BASE_URL", "USERNAME"]`. -/
def requiredEnvA : List String := ["BASE_URL", "USERNAME"]

/-- Variant B's required configuration keys:
`if not all([BASE_URL, USERNAME, PASSWORD_HASH])`. -/
def requiredEnvB : List String := ["BASE_URL", "USERNAME", "PASSWORD_HASH"]

/-- A record that variant A's loop can classify without raising: its id
passes the truthiness and type check and converts with `int()`, and its
amount is either caught by the skip test or converts with `int()`. -/
def wellFormedA (b : Bill) : Prop :=
  pyTruthy b.id = true ∧ pyIsIntOrStr b.id = true ∧
    (pyToInt b.id).isSome = true ∧
    (zeroOrNone b.actualMoney = true ∨ (pyToInt b.actualMoney).isSome = true)

instance (b : Bill) : Decidable (wellFormedA b) := by
  unfold wellFormedA; infer_instance

/-- A record for which variant A's loop reaches `refund_bill`: id passes
the check and the amount is neither `0` nor `None`. -/
def eligA (b : Bill) : Bool :=
  pyTruthy b.id && pyIsIntOrStr b.id && !zeroOrNone b.actualMoney

/-- A record for which variant B's loop calls `refund_bill`:
`bid and amt is not None`. -/
def eligB (b : Bill) : Bool := pyTruthy b.id && !isNone b.actualMoney

/-- Whether `needle` occurs as a contiguous run inside `hay`. -/
def containsChars (needle : List Char) (hay : List Char) : Bool :=
  match hay with
  | [] => needle.isEmpty
  | c :: t => needle.isPrefixOf (c :: t) || containsChars needle t

/-- Whether the string `needle` occurs inside the string `hay`. -/
def strContains (hay needle : String) : Bool := containsChars needle.data hay.data

theorem processLoopA_counts (token : Option PyVal) (today : String)
    (orac : Nat → Bool) (bills : List Bill) (s f sk k : Nat)
    (acc : List RefundReq) (h : ∀ b ∈ bills, wellFormedA b) :
    ∃ s2 f2,
      (processLoopA token today orac bills s f sk k acc).summary =
        some ⟨s + s2, f + f2,
              sk + bills.countP (fun b => zeroOrNone b.actualMoney)⟩ ∧
      s2 + f2 + bills.countP (fun b => zeroOrNone b.actualMoney) = bills.length := by
  induction bills generalizing s f sk k acc with
  | nil => exact ⟨0, 0, by simp [processLoopA]⟩
  | cons b rest ih =>
    obtain ⟨h1, h2, h3, h4⟩ := h b (List.mem_cons_self b rest)
    have hrest : ∀ x ∈ rest, wellFormedA x := fun x hx => h x (List.mem_cons_of_mem _ hx)
    obtain ⟨j, hj⟩ := Option.isSome_iff_exists.mp h3
    by_cases hz : zeroOrNone b.actualMoney = true
    · obtain ⟨s2, f2, hsum, hlen⟩ := ih s f (sk + 1) k acc hrest
      refine ⟨s2, f2, ?_, ?_⟩
      · rw [show processLoopA token today orac (b :: rest) s f sk k acc =
              processLoopA token today orac rest s f (sk + 1) k acc by
            simp [processLoopA, h1, h2, hj, hz]]
        rw [hsum]
        simp [List.countP_cons, hz]
        omega
      · simp [List.countP_cons, hz]
        omega
    · have hz' : zeroOrNone b.actualMoney = false := by simpa using hz
      have h4' : (pyToInt b.actualMoney).isSome = true := by
        rcases h4 with h4 | h4
        · exact absurd h4 hz
        · exact h4
      obtain ⟨m, hm⟩ := Option.isSome_iff_exists.mp h4'
      have hstep : processLoopA token today orac (b :: rest) s f sk k acc =
          processLoopA token today orac rest
            (if (refundBillA token j m today (orac k)).1 then s + 1 else s)
            (if (refundBillA token j m today (orac k)).1 then f else f + 1) sk
            (k + (refundBillA token j m today (orac k)).2.length)
            (acc ++ (refundBillA token j m today (orac k)).2) := by
        simp [processLoopA, h1, h2, hj, hz', hm]
      by_cases hres : (refundBillA token j m today (orac k)).1 = true
      · obtain ⟨s2, f2, hsum, hlen⟩ := ih (s + 1) f sk
          (k + (refundBillA token j m today (orac k)).2.length)
          (acc ++ (refundBillA token j m today (orac k)).2) hrest
        refine ⟨s2 + 1, f2, ?_, ?_⟩
        · rw [hstep, if_pos hres, if_pos hres, hsum]
          simp [List.countP_cons, hz']
          omega
        · simp [List.countP_cons, hz']
          omega
      · have hres' : (refundBillA token j m today (orac k)).1 = false := by
          simpa using hres
        obtain ⟨s2, f2, hsum, hlen⟩ := ih s (f + 1) sk
          (k + (refundBillA token j m today (orac k)).2.length)
          (acc ++ (refundBillA token j m today (orac k)).2) hrest
        refine ⟨s2, f2 + 1, ?_, ?_⟩
        · rw [hstep, if_neg (by simp [hres']), if_neg (by simp [hres']), hsum]
          simp [List.countP_cons, hz']
          omega
        · simp [List.countP_cons, hz']
          omega

theorem refundBillA_reqs_le (token : Option PyVal) (billId amount : Int)
    (today : String) (httpOk : Bool) :
    (refundBillA token billId amount today httpOk).2.length ≤ 1 := by
  unfold refundBillA
  split <;> simp

theorem processLoopA_reqs_le (token : Option PyVal) (today : String)
    (orac : Nat → Bool) (bills : List Bill) (s f sk k : Nat)
    (acc : List RefundReq) :
    (processLoopA token today orac bills s f sk k acc).reqs.length ≤
      acc.length + bills.countP eligA := by
  induction bills generalizing s f sk k acc with
  | nil => simp [processLoopA]
  | cons b rest ih =>
    by_cases h1 : pyTruthy b.id = true
    · by_cases h2 : pyIsIntOrStr b.id = true
      · cases hj : pyToInt b.id with
        | none =>
          rw [show processLoopA token today orac (b :: rest) s f sk k acc =
                ⟨none, acc, true⟩ by simp [processLoopA, h1, h2, hj]]
          simp [List.countP_cons]
        | some j =>
          by_cases hz : zeroOrNone b.actualMoney = true
          · rw [show processLoopA token today orac (b :: rest) s f sk k acc =
                  processLoopA token today orac rest s f (sk + 1) k acc by
                simp [processLoopA, h1, h2, hj, hz]]
            refine le_trans (ih s f (sk + 1) k acc) ?_
            simp [List.countP_cons]
          · have hz' : zeroOrNone b.actualMoney = false := by simpa using hz
            cases hm : pyToInt b.actualMoney with
            | none =>
              rw [show processLoopA token today orac (b :: rest) s f sk k acc =
                    ⟨none, acc, true⟩ by simp [processLoopA, h1, h2, hj, hz', hm]]
              simp [List.countP_cons]
            | some m =>
              have he : eligA b = true := by simp [eligA, h1, h2, hz']
              rw [show processLoopA token today orac (b :: rest) s f sk k acc =
                    processLoopA token today orac rest
                      (if (refundBillA token j m today (orac k)).1 then s + 1 else s)
                      (if (refundBillA token j m today (orac k)).1 then f else f + 1)
                      sk (k + (refundBillA token j m today (orac k)).2.length)
                      (acc ++ (refundBillA token j m today (orac k)).2) by
                  simp [processLoopA, h1, h2, hj, hz', hm]]
              refine le_trans (ih _ _ _ _ _) ?_
              have hr := refundBillA_reqs_le token j m today (orac k)
              simp [List.countP_cons, he]
              omega
      · have h2' : pyIsIntOrStr b.id = false := by simpa using h2
        have he : eligA b = false := by simp [eligA, h2']
        rw [show processLoopA token today orac (b :: rest) s f sk k acc =
              processLoopA token today orac rest s f sk k acc by
            simp [processLoopA, h2']]
        refine le_trans (ih s f sk k acc) ?_
        simp [List.countP_cons, he]
    · have h1' : pyTruthy b.id = false := by simpa using h1
      have he : eligA b = false := by simp [eligA, h1']
      rw [show processLoopA token today orac (b :: rest) s f sk k acc =
            processLoopA token today orac rest s f sk k acc by
          simp [processLoopA, h1']]
      refine le_trans (ih s f sk k acc) ?_
      simp [List.countP_cons, he]

theorem processLoopB_reqs_le (orac : Nat → Bool) (bills : List Bill)
    (s f k : Nat) (acc : List RefundReqB) :
    (processLoopB orac bills s f k acc).reqs.length ≤
      acc.length + bills.countP eligB := by
  induction bills generalizing s f k acc with
  | nil => simp [processLoopB]
  | cons b rest ih =>
    by_cases hg : (pyTruthy b.id && !isNone b.actualMoney) = true
    · have he : eligB b = true := hg
      cases hm : pyToInt b.actualMoney with
      | none =>
        rw [show processLoopB orac (b :: rest) s f k acc = ⟨none, acc, true⟩ by
            simp [processLoopB, hg, refundBillB, hm]]
        simp [List.countP_cons]
      | some m =>
        rw [show processLoopB orac (b :: rest) s f k acc =
              processLoopB orac rest (if orac k then s + 1 else s)
                (if orac k then f else f + 1) (k + 1)
                (acc ++ [⟨b.id, none, m, "auto-refund", 0, none⟩]) by
            simp [processLoopB, hg, refundBillB, hm]]
        refine le_trans (ih _ _ _ _) ?_
        simp [List.countP_cons, he]
        omega
    · have hg' : (pyTruthy b.id && !isNone b.actualMoney) = false := by simpa using hg
      have he : eligB b = false := hg'
      rw [show processLoopB orac (b :: rest) s f k acc =
            processLoopB orac rest s f k acc by simp [processLoopB, hg']]
      refine le_trans (ih s f k acc) ?_
      simp [List.countP_cons, he]

theorem processLoopA_mem (token : Option PyVal) (today : String)
    (orac : Nat → Bool) (bills : List Bill) (s f sk k : Nat)
    (acc : List RefundReq) (req : RefundReq)
    (hmem : req ∈ (processLoopA token today orac bills s f sk k acc).reqs) :
    req ∈ acc ∨
      (req.memberId = none ∧ req.refundPowerDiscount = 0 ∧
       req.timeoutSeconds = some 30 ∧
       req.note = "python-refund-" ++ toString req.billId ++ "-" ++ today ∧
       ∃ b ∈ bills, pyToInt b.id = some req.billId ∧
         pyToInt b.actualMoney = some req.refundMoney) := by
  induction bills generalizing s f sk k acc with
  | nil =>
    left
    simpa [processLoopA] using hmem
  | cons b rest ih =>
    by_cases h1 : pyTruthy b.id = true
    · by_cases h2 : pyIsIntOrStr b.id = true
      · cases hj : pyToInt b.id with
        | none =>
          rw [show processLoopA token today orac (b :: rest) s f sk k acc =
                ⟨none, acc, true⟩ by simp [processLoopA, h1, h2, hj]] at hmem
          exact Or.inl hmem
        | some j =>
          by_cases hz : zeroOrNone b.actualMoney = true
          · rw [show processLoopA token today orac (b :: rest) s f sk k acc =
                  processLoopA token today orac rest s f (sk + 1) k acc by
                simp [processLoopA, h1, h2, hj, hz]] at hmem
            rcases ih s f (sk + 1) k acc hmem with h | ⟨ha, hb, hc, hd, x, hx, he⟩
            · exact Or.inl h
            · exact Or.inr ⟨ha, hb, hc, hd, x, List.mem_cons_of_mem _ hx, he⟩
          · have hz' : zeroOrNone b.actualMoney = false := by simpa using hz
            cases hm : pyToInt b.actualMoney with
            | none =>
              rw [show processLoopA token today orac (b :: rest) s f sk k acc =
                    ⟨none, acc, true⟩ by simp [processLoopA, h1, h2, hj, hz', hm]] at hmem
              exact Or.inl hmem
            | some m =>
              rw [show processLoopA token today orac (b :: rest) s f sk k acc =
                    processLoopA token today orac rest
                      (if (refundBillA token j m today (orac k)).1 then s + 1 else s)
                      (if (refundBillA token j m today (orac k)).1 then f else f + 1)
                      sk (k + (refundBillA token j m today (orac k)).2.length)
                      (acc ++ (refundBillA token j m today (orac k)).2) by
                  simp [processLoopA, h1, h2, hj, hz', hm]] at hmem
              rcases ih _ _ _ _ _ hmem with h | ⟨ha, hb, hc, hd, x, hx, he⟩
              · rcases List.mem_append.mp h with h | h
                · exact Or.inl h
                · by_cases ht : tokenTruthy token = true
                  · rw [show refundBillA token j m today (orac k) =
                          (orac k, [⟨j, none, m,
                            "python-refund-" ++ toString j ++ "-" ++ today, 0,
                            some 30⟩]) by simp [refundBillA, ht]] at h
                    have hr : req = ⟨j, none, m,
                        "python-refund-" ++ toString j ++ "-" ++ today, 0, some 30⟩ := by
                      simpa using h
                    subst hr
                    exact Or.inr ⟨rfl, rfl, rfl, rfl, b,
                      List.mem_cons_self b rest, hj, hm⟩
                  · have ht' : tokenTruthy token = false := by simpa using ht
                    rw [show refundBillA token j m today (orac k) = (false, []) by
                        simp [refundBillA, ht']] at h
                    simp at h
              · exact Or.inr ⟨ha, hb, hc, hd, x, List.mem_cons_of_mem _ hx, he⟩
      · have h2' : pyIsIntOrStr b.id = false := by simpa using h2
        rw [show processLoopA token today orac (b :: rest) s f sk k acc =
              processLoopA token today orac rest s f sk k acc by
            simp [processLoopA, h2']] at hmem
        rcases ih s f sk k acc hmem with h | ⟨ha, hb, hc, hd, x, hx, he⟩
        · exact Or.inl h
        · exact Or.inr ⟨ha, hb, hc, hd, x, List.mem_cons_of_mem _ hx, he⟩
    · have h1' : pyTruthy b.id = false := by simpa using h1
      rw [show processLoopA token today orac (b :: rest) s f sk k acc =
            processLoopA token today orac rest s f sk k acc by
          simp [processLoopA, h1']] at hmem
      rcases ih s f sk k acc hmem with h | ⟨ha, hb, hc, hd, x, hx, he⟩
      · exact Or.inl h
      · exact Or.inr ⟨ha, hb, hc, hd, x, List.mem_cons_of_mem _ hx, he⟩

theorem processLoopB_mem (orac : Nat → Bool) (bills : List Bill)
    (s f k : Nat) (acc : List RefundReqB) (req : RefundReqB)
    (hmem : req ∈ (processLoopB orac bills s f k acc).reqs) :
    req ∈ acc ∨
      (req.memberId = none ∧ req.refundPowerDiscount = 0 ∧
       req.timeoutSeconds = none ∧ req.note = "auto-refund" ∧
       ∃ b ∈ bills, b.id = req.billId ∧
         pyToInt b.actualMoney = some req.refundMoney) := by
  induction bills generalizing s f k acc with
  | nil =>
    left
    simpa [processLoopB] using hmem
  | cons b rest ih =>
    by_cases hg : (pyTruthy b.id && !isNone b.actualMoney) = true
    · cases hm : pyToInt b.actualMoney with
      | none =>
        rw [show processLoopB orac (b :: rest) s f k acc = ⟨none, acc, true⟩ by
            simp [processLoopB, hg, refundBillB, hm]] at hmem
        exact Or.inl hmem
      | some m =>
        rw [show processLoopB orac (b :: rest) s f k acc =
              processLoopB orac rest (if orac k then s + 1 else s)
                (if orac k then f else f + 1) (k + 1)
                (acc ++ [⟨b.id, none, m, "auto-refund", 0, none⟩]) by
            simp [processLoopB, hg, refundBillB, hm]] at hmem
        rcases ih _ _ _ _ hmem with h | ⟨ha, hb, hc, hd, x, hx, he⟩
        · rcases List.mem_append.mp h with h | h
          · exact Or.inl h
          · have hr : req = ⟨b.id, none, m, "auto-refund", 0, none⟩ := by
              simpa using h
            subst hr
            exact Or.inr ⟨rfl, rfl, rfl, rfl, b, List.mem_cons_self b rest, rfl, hm⟩
        · exact Or.inr ⟨ha, hb, hc, hd, x, List.mem_cons_of_mem _ hx, he⟩
    · have hg' : (pyTruthy b.id && !isNone b.actualMoney) = false := by simpa using hg
      rw [show processLoopB orac (b :: rest) s f k acc =
            processLoopB orac rest s f k acc by simp [processLoopB, hg']] at hmem
      rcases ih s f k acc hmem with h | ⟨ha, hb, hc, hd, x, hx, he⟩
      · exact Or.inl h
      · exact Or.inr ⟨ha, hb, hc, hd, x, List.mem_cons_of_mem _ hx, he⟩

theorem processRefundsA_mem (token : Option PyVal) (today : String)
    (orac : Nat → Bool) (bd : BillData) (req : RefundReq)
    (hmem : req ∈ (processRefundsA token today orac bd).reqs) :
    req.memberId = none ∧ req.refundPowerDiscount = 0 ∧
    req.timeoutSeconds = some 30 ∧
    req.note = "python-refund-" ++ toString req.billId ++ "-" ++ today ∧
    ∃ b ∈ billsOfA bd, pyToInt b.id = some req.billId ∧
      pyToInt b.actualMoney = some req.refundMoney := by
  unfold processRefundsA at hmem
  by_cases htot : pyEqZero (bd.totalCount.getD (PyVal.vint 0)) = true
  · rw [if_pos htot] at hmem
    simp at hmem
  · rw [if_neg htot] at hmem
    unfold billsOfA
    cases hdf : bd.dataField with
    | nonlist =>
      rw [hdf] at hmem
      simp at hmem
    | absent =>
      rw [hdf] at hmem
      rcases processLoopA_mem token today orac [] 0 0 0 0 [] req hmem with h | h
      · simp at h
      · exact h
    | list bs =>
      rw [hdf] at hmem
      rcases processLoopA_mem token today orac bs 0 0 0 0 [] req hmem with h | h
      · simp at h
      · exact h

theorem processRefundsB_mem (orac : Nat → Bool) (bd : BillDataB)
    (req : RefundReqB)
    (hmem : req ∈ (processRefundsB orac bd).reqs) :
    req.memberId = none ∧ req.refundPowerDiscount = 0 ∧
    req.timeoutSeconds = none ∧ req.note = "auto-refund" ∧
    ∃ b ∈ bd.bills, b.id = req.billId ∧
      pyToInt b.actualMoney = some req.refundMoney := by
  unfold processRefundsB at hmem
  by_cases htot : pyEqZero (bd.totalCount.getD (PyVal.vint 0)) = true
  · rw [if_pos htot] at hmem
    simp at hmem
  · rw [if_neg htot] at hmem
    rcases processLoopB_mem orac bd.bills 0 0 0 [] req hmem with h | h
    · simp at h
    · exact h

theorem ratTrunc_toward_zero (q : Rat) :
    ratTrunc q = if 0 ≤ q then ⌊q⌋ else ⌈q⌉ := by
  unfold ratTrunc
  split
  · next h =>
    rw [Rat.floor_def]
    exact Int.tdiv_eq_ediv (Rat.num_nonneg.mpr h) (by positivity)
  · next h =>
    have hneg : 0 ≤ -q.num := by
      have : q.num ≤ 0 := Rat.num_nonpos.mpr (le_of_not_le h)
      omega
    calc q.num.tdiv (q.den : Int) = -((-q.num).tdiv (q.den : Int)) := by
          rw [Int.neg_tdiv, Int.neg_neg]
      _ = -((-q.num) / (q.den : Int)) := by
          rw [Int.tdiv_eq_ediv hneg (by positivity)]
      _ = -((-q).num / ((-q).den : Int)) := by rw [Rat.neg_num, Rat.neg_den]
      _ = -⌊-q⌋ := by rw [Rat.floor_def]
      _ = ⌈q⌉ := by rw [Int.floor_neg, Int.neg_neg]

/-- C1 (amended): in variant A (`autoRefund.py`), for every bill record
whose id passes the loop's check (truthy, of type int or str, and
convertible with `int()`) and whose `actualMoney` is `0` or absent/null,
the loop issues no refund call for that bill and increments the skipped
count by exactly one — processing that bill is the same as processing the
rest with `skipped + 1`.  (Variant B keeps no skipped count and, as the
counterexample shows, does issue a refund call for a zero amount.) -/
theorem c1_zero_amount_skipped (token : Option PyVal) (today : String)
    (orac : Nat → Bool) (b : Bill) (rest : List Bill) (s f sk k : Nat)
    (acc : List RefundReq) (j : Int)
    (h1 : pyTruthy b.id = true) (h2 : pyIsIntOrStr b.id = true)
    (h3 : pyToInt b.id = some j)
    (h4 : zeroOrNone b.actualMoney = true) :
    processLoopA token today orac (b :: rest) s f sk k acc =
      processLoopA token today orac rest s f (sk + 1) k acc := by
  simp [processLoopA, h1, h2, h3, h4]

/-- C1 witness: a concrete zero-amount bill with a valid id is skipped,
adding no request and one to the skipped count. -/
theorem c1_zero_amount_skipped_witness :
    processLoopA (some (.vstr "tok")) "20260101" (fun _ => true)
        [⟨.vint 7, .vint 0⟩] 0 0 0 0 [] =
      processLoopA (some (.vstr "tok")) "20260101" (fun _ => true) [] 0 0 1 0 [] :=
  c1_zero_amount_skipped (some (.vstr "tok")) "20260101" (fun _ => true)
    ⟨.vint 7, .vint 0⟩ [] 0 0 0 0 [] 7 (by decide) (by decide) (by decide) (by decide)

/-- C1 counterexample: the claim fails on variant B (`auto_refund.py`).
For the fetched response `{totalCount: 1, data: [{id: 501, actualMoney: 0}]}`
its `process_refunds` issues a refund request (of amount `0`) for the
zero-amount bill instead of skipping it. -/
theorem c1_counterexample :
    (processRefundsB (fun _ => true)
        ⟨some (.vint 1), [⟨.vint 501, .vint 0⟩]⟩).reqs =
      [⟨.vint 501, none, 0, "auto-refund", 0, none⟩] := by rfl

/-- C2 (amended): in every run in which login does not yield a truthy
token, neither variant issues a fetch call or a refund call; variant A
(`autoRefund.py`) exits with code 1, but variant B (`auto_refund.py`)
merely returns from `main`, so its process exits with code 0 and the
failure is reported only in the log. -/
theorem c2_login_failure (ldA : Option PyVal) (frA : Option BillData)
    (today : String) (oracA : Nat → Bool)
    (ldB : Option PyVal) (frB : Option BillDataB) (oracB : Nat → Bool)
    (hA : loginResult ldA = none) (hB : loginResult ldB = none) :
    mainA ldA frA today oracA = ⟨1, false, []⟩ ∧
    mainB ldB frB oracB = ⟨0, false, []⟩ := by
  constructor
  · simp [mainA, hA]
  · simp [mainB, hB]

/-- C2 witness: a login response whose `data` field is the empty string
yields no token; neither variant fetches or refunds, A exits 1, B exits 0. -/
theorem c2_login_failure_witness :
    mainA (some (.vstr "")) none "20260101" (fun _ => true) = ⟨1, false, []⟩ ∧
    mainB (some (.vstr "")) none (fun _ => true) = ⟨0, false, []⟩ :=
  c2_login_failure (some (.vstr "")) none "20260101" (fun _ => true)
    (some (.vstr "")) none (fun _ => true) (by decide) (by decide)

/-- C2 counterexample: the claim fails on variant B: when login fails
(here: the login request itself errors), no fetch or refund call is made,
but the process terminates with exit code 0, not a non-zero code. -/
theorem c2_counterexample :
    (mainB none none (fun _ => true)).exitCode = 0 ∧
    (mainB none none (fun _ => true)).fetchIssued = false ∧
    (mainB none none (fun _ => true)).reqs = [] := by
  refine ⟨rfl, rfl, rfl⟩

/-- C4: the claim is right and the code is wrong.  Variant A's loop guards
ids with `isinstance(bill_id, (int, str))`, intending to field malformed
records, but then evaluates `int(bill_id)` unguarded: for the bill
`{id: "abc", actualMoney: 100}` the call raises an uncaught `ValueError`,
aborting the whole loop with nothing counted — the claim (and the spec's
error taxonomy) say such a record is counted as skipped and processing
continues. -/
theorem c4_nonnumeric_id_crash :
    processRefundsA (some (.vstr "tok")) "20260101" (fun _ => true)
        ⟨some (.vint 1), .list [⟨.vstr "abc", .vint 100⟩]⟩ =
      ⟨none, [], true⟩ := by rfl

/-- C3 (amended): in variant A, for a fetched batch whose `data` list
consists of well-formed records (id passes the check and converts, amount
skipped or convertible) and whose `totalCount` gate passes, the logged
tally satisfies `success + failed + skipped = N` and `skipped = K` (hence
`skipped ≥ K`), where `N` is the length of the list and `K` the number of
records with zero/null `actualMoney`.  (Records whose id fails the check
are counted in no tally, which is what the counterexample exhibits.) -/
theorem c3_tally (token : Option PyVal) (today : String) (orac : Nat → Bool)
    (bd : BillData) (bills : List Bill)
    (hdata : bd.dataField = .list bills)
    (htot : pyEqZero (bd.totalCount.getD (PyVal.vint 0)) = false)
    (h : ∀ b ∈ bills, wellFormedA b) :
    ∃ c : RunCounts,
      (processRefundsA token today orac bd).summary = some c ∧
      c.success + c.failed + c.skipped = bills.length ∧
      c.skipped = bills.countP (fun b => zeroOrNone b.actualMoney) := by
  obtain ⟨s2, f2, hsum, hlen⟩ :=
    processLoopA_counts token today orac bills 0 0 0 0 [] h
  refine ⟨⟨s2, f2, bills.countP (fun b => zeroOrNone b.actualMoney)⟩, ?_, ?_, rfl⟩
  · rw [show processRefundsA token today orac bd =
        processLoopA token today orac bills 0 0 0 0 [] by
      simp [processRefundsA, hdata, htot]]
    simpa using hsum
  · simpa using hlen

/-- C3 witness: a two-bill batch, one zero-amount and one refundable,
tallies success 1, failed 0, skipped 1: the counts sum to N = 2 and
skipped equals K = 1. -/
theorem c3_tally_witness :
    ∃ c : RunCounts,
      (processRefundsA (some (.vstr "tok")) "20260101" (fun _ => true)
          ⟨some (.vint 2), .list [⟨.vint 7, .vint 0⟩, ⟨.vint 8, .vint 5⟩]⟩).summary
        = some c ∧
      c.success + c.failed + c.skipped =
        [(⟨.vint 7, .vint 0⟩ : Bill), ⟨.vint 8, .vint 5⟩].length ∧
      c.skipped = [(⟨.vint 7, .vint 0⟩ : Bill), ⟨.vint 8, .vint 5⟩].countP
        (fun b => zeroOrNone b.actualMoney) :=
  c3_tally (some (.vstr "tok")) "20260101" (fun _ => true)
    ⟨some (.vint 2), .list [⟨.vint 7, .vint 0⟩, ⟨.vint 8, .vint 5⟩]⟩
    [⟨.vint 7, .vint 0⟩, ⟨.vint 8, .vint 5⟩] rfl (by decide) (by decide)

/-- C3 counterexample: a batch of N = 1 records, K = 0 of them zero/null,
whose single record has a missing id: the loop counts it nowhere, the
logged tally is `0/0/0`, and `success + failed + skipped = 0 ≠ 1 = N`. -/
theorem c3_counterexample :
    (processRefundsA (some (.vstr "tok")) "20260101" (fun _ => true)
        ⟨some (.vint 1), .list [⟨.vnone, .vint 5⟩]⟩).summary = some ⟨0, 0, 0⟩ ∧
    (0 + 0 + 0 : Nat) ≠ [(⟨.vnone, .vint 5⟩ : Bill)].length := by
  exact ⟨rfl, by decide⟩

/-- C5 (amended): in each variant, each entry of the fetched list is
attempted at most once — the number of refund requests sent in a run is
at most the number of entries passing the eligibility gate — but the gate
is `actualMoney` distinct from `0` and `None` (variant A), respectively
distinct from `None` alone (variant B), not `actualMoney > 0`: the
counterexample shows a negative amount being attempted. -/
theorem c5_at_most_once (token : Option PyVal) (today : String)
    (oracA : Nat → Bool) (bd : BillData)
    (oracB : Nat → Bool) (bdB : BillDataB) :
    (processRefundsA token today oracA bd).reqs.length ≤
      (billsOfA bd).countP eligA ∧
    (processRefundsB oracB bdB).reqs.length ≤ bdB.bills.countP eligB := by
  constructor
  · unfold processRefundsA billsOfA
    by_cases htot : pyEqZero (bd.totalCount.getD (PyVal.vint 0)) = true
    · simp [htot]
    · rw [if_neg htot]
      cases hdf : bd.dataField with
      | nonlist => simp
      | absent => simpa using processLoopA_reqs_le token today oracA [] 0 0 0 0 []
      | list bs => simpa using processLoopA_reqs_le token today oracA bs 0 0 0 0 []
  · unfold processRefundsB
    by_cases htot : pyEqZero (bdB.totalCount.getD (PyVal.vint 0)) = true
    · simp [htot]
    · rw [if_neg htot]
      simpa using processLoopB_reqs_le oracB bdB.bills 0 0 0 []

/-- C5 counterexample: a bill with `actualMoney = -5` is attempted — the
run sends one refund request carrying `refundMoney = -5` — although `-5`
is not positive, so the attempt is not gated by an amount-is-positive
check. -/
theorem c5_counterexample :
    (processRefundsA (some (.vstr "tok")) "20260101" (fun _ => true)
        ⟨some (.vint 1), .list [⟨.vint 7, .vint (-5)⟩]⟩).reqs =
      [⟨7, none, -5, "python-refund-7-20260101", 0, some 30⟩] ∧
    ¬(0 < (-5 : Int)) := by
  exact ⟨rfl, by decide⟩

/-- C6 (amended): every refund request of either variant carries the body
`{billId, memberId: null, refundMoney, note, refundPowerDiscount: 0}`;
in variant A the note is `"python-refund-" ++ billId ++ "-" ++ date`,
embedding that bill's id and the date, but in variant B the note is the
constant string `"auto-refund"`, which embeds neither. -/
theorem c6_payload_shape (token : Option PyVal) (today : String)
    (oracA : Nat → Bool) (bd : BillData) (req : RefundReq)
    (oracB : Nat → Bool) (bdB : BillDataB) (reqB : RefundReqB)
    (hA : req ∈ (processRefundsA token today oracA bd).reqs)
    (hB : reqB ∈ (processRefundsB oracB bdB).reqs) :
    (req.memberId = none ∧ req.refundPowerDiscount = 0 ∧
     req.note = "python-refund-" ++ toString req.billId ++ "-" ++ today) ∧
    (reqB.memberId = none ∧ reqB.refundPowerDiscount = 0 ∧
     reqB.note = "auto-refund") := by
  obtain ⟨ha, hb, _, hd, _⟩ := processRefundsA_mem token today oracA bd req hA
  obtain ⟨ha', hb', _, hd', _⟩ := processRefundsB_mem oracB bdB reqB hB
  exact ⟨⟨ha, hb, hd⟩, ⟨ha', hb', hd'⟩⟩

/-- C6 witness: concrete runs of both variants each sending one request,
with the stated bodies. -/
theorem c6_payload_shape_witness :
    ((⟨7, none, 5, "python-refund-7-20260101", 0, some 30⟩ : RefundReq).memberId
        = none ∧
     (⟨7, none, 5, "python-refund-7-20260101", 0, some 30⟩ :
        RefundReq).refundPowerDiscount = 0 ∧
     (⟨7, none, 5, "python-refund-7-20260101", 0, some 30⟩ : RefundReq).note =
       "python-refund-" ++
         toString (⟨7, none, 5, "python-refund-7-20260101", 0, some 30⟩ :
           RefundReq).billId ++ "-" ++ "20260101") ∧
    ((⟨.vint 501, none, 100, "auto-refund", 0, none⟩ : RefundReqB).memberId
        = none ∧
     (⟨.vint 501, none, 100, "auto-refund", 0, none⟩ :
        RefundReqB).refundPowerDiscount = 0 ∧
     (⟨.vint 501, none, 100, "auto-refund", 0, none⟩ : RefundReqB).note =
       "auto-refund") :=
  c6_payload_shape (some (.vstr "tok")) "20260101" (fun _ => true)
    ⟨some (.vint 1), .list [⟨.vint 7, .vint 5⟩]⟩
    ⟨7, none, 5, "python-refund-7-20260101", 0, some 30⟩
    (fun _ => true) ⟨some (.vint 1), [⟨.vint 501, .vint 100⟩]⟩
    ⟨.vint 501, none, 100, "auto-refund", 0, none⟩ (by decide) (by decide)

/-- C6 counterexample: in a variant B run for bill id 501 the one request
sent carries the note `"auto-refund"`, and the digit string `"501"` of the
bill id does not occur in it — the note embeds neither the bill id nor a
date. -/
theorem c6_counterexample :
    (processRefundsB (fun _ => true)
        ⟨some (.vint 1), [⟨.vint 501, .vint 100⟩]⟩).reqs.map RefundReqB.note =
      ["auto-refund"] ∧
    strContains "auto-refund" "501" = false := by
  exact ⟨rfl, by decide⟩

/-- C7 (amended): the pairing is the reverse of the claim.  The variant
that requires the password hash at configuration time (`auto_refund.py`,
variant B) issues its login, fetch and refund calls with no timeout at
all (library default), while the fixed 30-second timeout belongs to the
variant requiring only the base URL and account (`autoRefund.py`,
variant A), whose refund requests carry `timeout=30`. -/
theorem c7_timeouts :
    requiredEnvA = ["BASE_URL", "USERNAME"] ∧
    loginOptsA = ⟨some 30⟩ ∧ fetchOptsA = ⟨some 30⟩ ∧ refundOptsA = ⟨some 30⟩ ∧
    requiredEnvB = ["BASE_URL", "USERNAME", "PASSWORD_HASH"] ∧
    loginOptsB = ⟨none⟩ ∧ fetchOptsB = ⟨none⟩ ∧ refundOptsB = ⟨none⟩ ∧
    (refundBillA (some (.vstr "tok")) 1 2 "20260101" true).2.map
      RefundReq.timeoutSeconds = [some 30] := by
  refine ⟨rfl, rfl, rfl, rfl, rfl, rfl, rfl, rfl, rfl⟩

/-- C7 counterexample: the stricter variant — the one whose required
configuration includes the password hash — passes no 30-second timeout on
any of its three calls. -/
theorem c7_counterexample :
    "PASSWORD_HASH" ∈ requiredEnvB ∧ "PASSWORD_HASH" ∉ requiredEnvA ∧
    loginOptsB.timeoutSeconds ≠ some 30 ∧
    fetchOptsB.timeoutSeconds ≠ some 30 ∧
    refundOptsB.timeoutSeconds ≠ some 30 := by
  refine ⟨by decide, by decide, by decide, by decide, by decide⟩

/-- C8: in both variants, whenever the fetched response's `totalCount`
field is `0` or absent, `process_refunds` returns before the loop: no
refund request is sent and no summary is logged, regardless of the `data`
list — the gate is `totalCount`, not the list's length. -/
theorem c8_totalCount_gate (token : Option PyVal) (today : String)
    (oracA : Nat → Bool) (bd : BillData)
    (oracB : Nat → Bool) (bdB : BillDataB)
    (hA : bd.totalCount = none ∨ bd.totalCount = some (.vint 0))
    (hB : bdB.totalCount = none ∨ bdB.totalCount = some (.vint 0)) :
    processRefundsA token today oracA bd = ⟨none, [], false⟩ ∧
    processRefundsB oracB bdB = ⟨none, [], false⟩ := by
  constructor
  · rcases hA with h | h <;> simp [processRefundsA, h, pyEqZero]
  · rcases hB with h | h <;> simp [processRefundsB, h, pyEqZero]

/-- C8 witness: responses with an absent (variant A) or zero (variant B)
`totalCount` and a non-empty `data` list still produce no refund call. -/
theorem c8_totalCount_gate_witness :
    processRefundsA (some (.vstr "tok")) "20260101" (fun _ => true)
        ⟨none, .list [⟨.vint 1, .vint 5⟩]⟩ = ⟨none, [], false⟩ ∧
    processRefundsB (fun _ => true) ⟨some (.vint 0), [⟨.vint 1, .vint 5⟩]⟩ =
      ⟨none, [], false⟩ :=
  c8_totalCount_gate (some (.vstr "tok")) "20260101" (fun _ => true)
    ⟨none, .list [⟨.vint 1, .vint 5⟩]⟩ (fun _ => true)
    ⟨some (.vint 0), [⟨.vint 1, .vint 5⟩]⟩ (Or.inl rfl) (Or.inr rfl)

/-- C9: whenever variant A's `refund_bill` is called while the stored
token is `None` or the empty string, it returns `False` and sends no HTTP
request at all. -/
theorem c9_no_token_no_request (token : Option PyVal) (billId amount : Int)
    (today : String) (httpOk : Bool)
    (h : token = none ∨ token = some (.vstr "")) :
    refundBillA token billId amount today httpOk = (false, []) := by
  rcases h with h | h <;> simp [refundBillA, tokenTruthy, pyTruthy, h]

/-- C9 witness: a call with no stored token returns `False` with no
request sent. -/
theorem c9_no_token_no_request_witness :
    refundBillA none 501 100 "20260101" true = (false, []) :=
  c9_no_token_no_request none 501 100 "20260101" true (Or.inl rfl)

/-- C10: every refund request either variant sends carries as
`refundMoney` the value `int(actualMoney)` of a fetched bill matching its
`billId` (an integer by construction), and on fractional amounts `int()`
truncates toward zero: it is the floor for non-negative amounts and the
ceiling for negative ones. -/
theorem c10_refund_money (token : Option PyVal) (today : String)
    (oracA : Nat → Bool) (bd : BillData) (req : RefundReq)
    (oracB : Nat → Bool) (bdB : BillDataB) (reqB : RefundReqB)
    (hA : req ∈ (processRefundsA token today oracA bd).reqs)
    (hB : reqB ∈ (processRefundsB oracB bdB).reqs) :
    (∃ b ∈ billsOfA bd, pyToInt b.id = some req.billId ∧
       pyToInt b.actualMoney = some req.refundMoney) ∧
    (∃ b ∈ bdB.bills, b.id = reqB.billId ∧
       pyToInt b.actualMoney = some reqB.refundMoney) ∧
    (∀ q : Rat, pyToInt (.vfloat q) = some (if 0 ≤ q then ⌊q⌋ else ⌈q⌉)) := by
  obtain ⟨_, _, _, _, hex⟩ := processRefundsA_mem token today oracA bd req hA
  obtain ⟨_, _, _, _, hex'⟩ := processRefundsB_mem oracB bdB reqB hB
  refine ⟨hex, hex', fun q => ?_⟩
  rw [show pyToInt (.vfloat q) = some (ratTrunc q) from rfl,
    ratTrunc_toward_zero q]

/-- C10 witness: in a variant A run on a bill with `actualMoney = 7/2`
the request sent carries `refundMoney = 3 = int(7/2)`, and likewise for a
variant B run; both match the bill the request came from. -/
theorem c10_refund_money_witness :
    (∃ b ∈ billsOfA ⟨some (.vint 1),
        .list [⟨.vint 5, .vfloat (mkRat 7 2)⟩]⟩,
       pyToInt b.id = some (5 : Int) ∧ pyToInt b.actualMoney = some (3 : Int)) ∧
    (∃ b ∈ ([⟨.vint 6, .vfloat (mkRat 7 2)⟩] : List Bill),
       b.id = PyVal.vint 6 ∧ pyToInt b.actualMoney = some (3 : Int)) ∧
    (∀ q : Rat, pyToInt (.vfloat q) = some (if 0 ≤ q then ⌊q⌋ else ⌈q⌉)) :=
  c10_refund_money (some (.vstr "tok")) "d" (fun _ => true)
    ⟨some (.vint 1), .list [⟨.vint 5, .vfloat (mkRat 7 2)⟩]⟩
    ⟨5, none, 3, "python-refund-5-d", 0, some 30⟩
    (fun _ => true) ⟨some (.vint 1), [⟨.vint 6, .vfloat (mkRat 7 2)⟩]⟩
    ⟨.vint 6, none, 3, "auto-refund", 0, none⟩ (by decide) (by decide)
